import Mathlib

/-!
Shallow embedding of the USB control-transfer dispatcher and bulk-data
relay of `avr_ftdi.cpp` (an AVR firmware emulating an FTDI FT232BM-style
USB-to-serial bridge), together with theorems about its descriptor
handling, request dispatch and relay behaviour.

Machine bytes and words are modelled as `Nat` with explicit `% 256` /
`% 65536` truncation where the C code narrows.  Hardware endpoint
registers are modelled as explicit inputs: a control-endpoint status
record per busy-wait iteration, a `txini` ready flag for the bulk IN
endpoint, and an optional received packet for the bulk OUT endpoint.
The status-stage handshake that follows a successful dispatch is
hardware-driven; the embedding exposes the ack-versus-stall decision the
firmware takes at the end of dispatch (the `if(ok)` at the end of
`usb_control_in` / `usb_control_out`).
-/

/-- Modelled from the spec: the repository's `usb.h` header (standard USB
request codes, request-type bits and descriptor type tags) is not among
the provided sources; values follow the USB 1.1 standard codes the spec
names in section 4.2. -/
def usb_req_get_status : Nat := 0

def usb_req_clear_feature : Nat := 1

def usb_req_set_feature : Nat := 3

def usb_req_set_address : Nat := 5

def usb_req_get_desc : Nat := 6

def usb_req_set_desc : Nat := 7

def usb_req_get_config : Nat := 8

def usb_req_set_config : Nat := 9

def usb_req_get_iface : Nat := 10

def usb_req_set_iface : Nat := 11

def usb_req_synch_frame : Nat := 12

/-- Modelled from the spec: direction bit of `bmRequestType` (device to
host), from the missing `usb.h`. -/
def USB_REQ_TYPE_IN : Nat := 0x80

/-- Modelled from the spec: host-to-device direction value. -/
def USB_REQ_TYPE_OUT : Nat := 0x00

/-- Modelled from the spec: vendor-specific type bit of `bmRequestType`. -/
def USB_REQ_TYPE_VENDOR : Nat := 0x40

/-- Modelled from the spec: interface-recipient bits of `bmRequestType`. -/
def USB_REQ_TYPE_INTERFACE : Nat := 0x01

/-- Modelled from the spec: endpoint-recipient bits of `bmRequestType`. -/
def USB_REQ_TYPE_ENDPOINT : Nat := 0x02

/-- Modelled from the spec: same bit as `USB_REQ_TYPE_IN`, used by the
source's `head.bmReqType & ReqType_DirD2H` test. -/
def ReqType_DirD2H : Nat := 0x80

/-- Modelled from the spec: FTDI SIO vendor command codes from the missing
`usb.h`; values are the FTDI SIO protocol codes for the commands the spec
lists in section 4.3. -/
def FTDI_SIO_RESET : Nat := 0

def FTDI_SIO_MODEM_CTRL : Nat := 1

def FTDI_SIO_SET_FLOW_CTRL : Nat := 2

def FTDI_SIO_SET_BAUD_RATE : Nat := 3

def FTDI_SIO_SET_DATA : Nat := 4

def FTDI_SIO_GET_MODEM_STATUS : Nat := 5

def FTDI_SIO_SET_LATENCY_TIMER : Nat := 9

def FTDI_SIO_GET_LATENCY_TIMER : Nat := 10

def FTDI_SIO_READ_EEPROM : Nat := 0x90

/-- Modelled from the spec: descriptor type tag for a device descriptor. -/
def usb_desc_device : Nat := 1

/-- Modelled from the spec: descriptor type tag for a configuration
descriptor. -/
def usb_desc_config : Nat := 2

/-- Modelled from the spec: descriptor type tag for a string descriptor. -/
def usb_desc_string : Nat := 3

/-- Modelled from the spec: descriptor type tag for an interface
descriptor. -/
def usb_desc_iface : Nat := 4

/-- Modelled from the spec: descriptor type tag for an endpoint
descriptor. -/
def usb_desc_EP : Nat := 5

/-- The 18-byte device descriptor `devdesc` (avr_ftdi.cpp lines 127-142),
serialized with the standard little-endian USB device-descriptor layout
(the struct definition lives in the missing `usb.h`; the spec states the
descriptors mirror the standard layout): bLength 18, type tag, bcdUSB
0x0110, class/subclass/protocol 0, EP0 size 64, idVendor 0x0403,
idProduct 0x6001, bcdDevice 0x0400, iManufacturer 1, iProduct 2,
iSerialNumber 0, bNumConfigurations 1. -/
def devdescBytes : List Nat :=
  [18, 1, 0x10, 0x01, 0x00, 0x00, 0x00, 64,
   0x03, 0x04, 0x01, 0x60, 0x00, 0x04, 1, 2, 0, 1]

/-- The 32-byte configuration bundle `devconf` (lines 152-193):
configuration descriptor (total length 32, 1 interface, value 1, bus
powered, 10 x 2 mA), vendor-specific interface descriptor with 2
endpoints, bulk IN endpoint 0x81 and bulk OUT endpoint 0x02, both with a
64-byte max packet. -/
def devconfBytes : List Nat :=
  [9, 2, 32, 0, 1, 1, 0, 0x80, 10,
   9, 4, 0, 0, 2, 0xff, 0xff, 0xff, 0,
   7, 5, 0x81, 0x02, 0x40, 0x00, 0,
   7, 5, 0x02, 0x02, 0x40, 0x00, 0]

/-- String descriptor 0 `iLang` (lines 195-199): advertised length 4,
string type tag, language id 0x0409 little-endian. -/
def iLangBytes : List Nat := [4, 3, 0x09, 0x04]

/-- String descriptor 1 `iProd` (line 216): advertised length 28 (the
`DESCSTR` macro counts the two trailing explicit NULs of
`L"QuartelRCBB\0\0"`), string type tag, then UTF-16LE "QuartelRCBB"
followed by four zero bytes. -/
def iProdBytes : List Nat :=
  [28, 3,
   0x51, 0, 0x75, 0, 0x61, 0, 0x72, 0, 0x74, 0, 0x65, 0,
   0x6C, 0, 0x52, 0, 0x43, 0, 0x42, 0, 0x42, 0,
   0, 0, 0, 0]

/-- String descriptor 2 `iSerial` (line 219): advertised length 22,
string type tag, UTF-16LE "FTP1W65N" followed by four zero bytes. -/
def iSerialBytes : List Nat :=
  [22, 3,
   0x46, 0, 0x54, 0, 0x50, 0, 0x31, 0, 0x57, 0, 0x36, 0, 0x35, 0, 0x4E, 0,
   0, 0, 0, 0]

/-- The SETUP packet record `usb_header` (`static usb_header head`, line
124), fields as captured by `handle_CONTROL` from the eight SETUP bytes;
each field holds the value read from the wire (so `< 2^8` or `< 2^16`). -/
structure usb_header where
  bmReqType : Nat
  bReq : Nat
  wValue : Nat
  wIndex : Nat
  wLength : Nat
deriving DecidableEq

/-- One observation of the control-endpoint hardware registers, as read at
the top of each iteration of the busy-wait loop in `ctrl_write_PM`
(lines 451-454): `bsize` is `UEBCLX` (bytes already in the FIFO) and the
three flags are the `RXSTPI`, `RXOUTI`, `TXINI` bits of `UEINTX`. -/
structure EpStatus where
  bsize : Nat
  rxstpi : Bool
  rxouti : Bool
  txini : Bool
deriving DecidableEq

/-- A status observation with an empty FIFO, transmit ready and no
interrupting SETUP or OUT: the happy path of the busy-wait loop. -/
def readyStatus : EpStatus := ⟨0, false, false, true⟩

/-- Outcome of `ctrl_write_PM`: `done sent ret` when the C function
returns `ret` having pushed `sent` to the endpoint FIFO, `halt` when one
of its `oops` assertions fails (the firmware spins forever), `spin` when
the supplied status stream ran out while the loop was still waiting. -/
inductive CtrlResult where
  | done (sent : List Nat) (ret : Nat)
  | halt (sent : List Nat)
  | spin (sent : List Nat)
deriving DecidableEq

/-- `ctrl_write_PM` (lines 447-484): stream `len` bytes of `addr` to
endpoint 0 in chunks of at most `EP0_SIZE = 64`, consuming one hardware
status observation per loop iteration; abort with return 1 on a new
SETUP, stop early with return 0 on a premature OUT, skip the iteration
when transmit is not ready, and `oops` (halt) when the endpoint size
accounting is impossible. -/
def ctrl_write_PM (sts : List EpStatus) (addr : List Nat) (len : Nat)
    (acc : List Nat) : CtrlResult :=
  match sts with
  | [] => if len = 0 then CtrlResult.done acc 0 else CtrlResult.spin acc
  | st :: rest =>
    if len = 0 then CtrlResult.done acc 0
    else if 64 < st.bsize then CtrlResult.halt acc
    else
      let ntx := min (64 - st.bsize) len
      if st.rxstpi then CtrlResult.done acc 1
      else if st.rxouti then CtrlResult.done acc 0
      else if ¬ st.txini then ctrl_write_PM rest addr len acc
      else if ntx = 0 then CtrlResult.halt acc
      else ctrl_write_PM rest (addr.drop ntx) (len - ntx) (acc ++ addr.take ntx)

/-- The descriptor lookup switch of `USB_get_desc` (lines 230-254):
select the descriptor by type (high byte of `wValue`) and index (low
byte); the result carries exactly the bytes the firmware would stream
(its `len` before clamping: `sizeof` for device/config, the first byte
for strings), so the native length is the list length. -/
def USB_get_desc_lookup (wValue : Nat) : Option (List Nat) :=
  let idx := wValue % 256
  if wValue / 256 = usb_desc_device then
    if idx ≠ 0 then none else some devdescBytes
  else if wValue / 256 = usb_desc_config then
    if idx ≠ 0 then none else some devconfBytes
  else if wValue / 256 = usb_desc_string then
    if idx = 0 then some iLangBytes
    else if idx = 1 then some iProdBytes
    else if idx = 2 then some iSerialBytes
    else none
  else none

/-- The final fate of a control transfer as decided by the dispatcher:
acknowledged, stalled (`STALLRQ` requested), or wedged in a fatal `oops`
or busy-wait loop. -/
inductive CtrlAction where
  | ack
  | stall
  | wedged
deriving DecidableEq

/-- Intermediate dispatch state threaded through a control handler: data
bytes pushed to EP0 so far, the `ok` flag, whether
`dump_unsupported_request` has been called, the `USB_config` value, and
whether the firmware got stuck. -/
structure DispatchSt where
  data : List Nat
  ok : Bool
  diag : Bool
  cfg : Nat
  wedged : Bool
deriving DecidableEq

/-- The standard-request `switch` of `usb_control_in` (lines 529-586).
`cfg` is the current `USB_config`; `sts` feeds the descriptor stream of
`USB_get_desc`. -/
def usb_control_in_std (h : usb_header) (cfg : Nat) (sts : List EpStatus) :
    DispatchSt :=
  if h.bReq = usb_req_set_feature ∨ h.bReq = usb_req_clear_feature then
    ⟨[], true, false, cfg, false⟩
  else if h.bReq = usb_req_get_status then
    if h.bmReqType = USB_REQ_TYPE_IN ∨
        h.bmReqType = USB_REQ_TYPE_IN ||| USB_REQ_TYPE_INTERFACE ∨
        h.bmReqType = USB_REQ_TYPE_IN ||| USB_REQ_TYPE_ENDPOINT then
      ⟨[0, 0], true, false, cfg, false⟩
    else ⟨[], false, false, cfg, false⟩
  else if h.bReq = usb_req_set_address then ⟨[], false, false, cfg, false⟩
  else if h.bReq = usb_req_get_desc then
    if h.bmReqType = 0x80 then
      match USB_get_desc_lookup h.wValue with
      | none => ⟨[], false, false, cfg, false⟩
      | some desc =>
        match ctrl_write_PM sts desc (min desc.length h.wLength) [] with
        | CtrlResult.done sent ret => ⟨sent, ret == 0, false, cfg, false⟩
        | CtrlResult.halt sent => ⟨sent, false, false, cfg, true⟩
        | CtrlResult.spin sent => ⟨sent, false, false, cfg, true⟩
    else ⟨[], false, false, cfg, false⟩
  else if h.bReq = usb_req_set_config then
    if h.bmReqType = 0 then ⟨[], true, false, h.wValue % 256, false⟩
    else ⟨[], false, false, cfg, false⟩
  else if h.bReq = usb_req_get_config then
    if h.bmReqType = USB_REQ_TYPE_IN then ⟨[cfg % 256], true, false, cfg, false⟩
    else ⟨[], false, false, cfg, false⟩
  else if h.bReq = usb_req_set_iface ∨ h.bReq = usb_req_get_iface ∨
      h.bReq = usb_req_set_desc ∨ h.bReq = usb_req_synch_frame then
    ⟨[], false, false, cfg, false⟩
  else
    ⟨[], false, h.bmReqType &&& USB_REQ_TYPE_VENDOR == 0, cfg, false⟩

/-- The vendor-specific block of `usb_control_in` (lines 589-618): only
entered when `bmReqType` is exactly IN plus vendor; serves Read EEPROM,
Get Latency Timer and Get Modem Status with canned bytes, and logs any
other opcode without touching `ok`. -/
def usb_control_in_vendor (h : usb_header) (r : DispatchSt) : DispatchSt :=
  if h.bmReqType = USB_REQ_TYPE_IN ||| USB_REQ_TYPE_VENDOR then
    if h.bReq = FTDI_SIO_READ_EEPROM then
      ⟨r.data ++ [0xff, 0xff], true, r.diag, r.cfg, r.wedged⟩
    else if h.bReq = FTDI_SIO_GET_LATENCY_TIMER then
      ⟨r.data ++ [0x10], true, r.diag, r.cfg, r.wedged⟩
    else if h.bReq = FTDI_SIO_GET_MODEM_STATUS then
      ⟨r.data ++ [0x00], true, r.diag, r.cfg, r.wedged⟩
    else ⟨r.data, r.ok, true, r.cfg, r.wedged⟩
  else r

/-- Result of one control handler run: the data-stage bytes pushed to
EP0, the ack/stall decision (`if(ok)` at lines 620-648 resp. 725-753),
whether a diagnostic was dumped, and the resulting `USB_config`. -/
structure CInRes where
  data : List Nat
  action : CtrlAction
  diag : Bool
  cfg : Nat
deriving DecidableEq

/-- `usb_control_in` (lines 523-649): standard `switch`, then the
vendor-specific block, then the `if(ok)` ack-or-stall decision. -/
def usb_control_in (h : usb_header) (cfg : Nat) (sts : List EpStatus) :
    CInRes :=
  let r := usb_control_in_vendor h (usb_control_in_std h cfg sts)
  ⟨r.data,
   if r.wedged then CtrlAction.wedged
   else if r.ok then CtrlAction.ack else CtrlAction.stall,
   r.diag, r.cfg⟩

/-- Intermediate state of `usb_control_out`: `addr = some a` records that
`USB_set_address` ran (the handler returns early in that case, line
676). -/
structure OutSt where
  ok : Bool
  diag : Bool
  cfg : Nat
  addr : Option Nat
deriving DecidableEq

/-- The standard-request `switch` of `usb_control_out` (lines 656-705). -/
def usb_control_out_std (h : usb_header) (cfg : Nat) : OutSt :=
  if h.bReq = usb_req_set_feature ∨ h.bReq = usb_req_clear_feature then
    ⟨true, false, cfg, none⟩
  else if h.bReq = usb_req_get_status then ⟨false, false, cfg, none⟩
  else if h.bReq = usb_req_set_address then
    if h.bmReqType = USB_REQ_TYPE_OUT then
      ⟨true, false, cfg, some (h.wValue % 128)⟩
    else ⟨false, false, cfg, none⟩
  else if h.bReq = usb_req_get_desc then ⟨false, false, cfg, none⟩
  else if h.bReq = usb_req_set_config then
    if h.bmReqType = 0 then ⟨true, false, h.wValue % 256, none⟩
    else ⟨false, false, cfg, none⟩
  else if h.bReq = usb_req_get_config ∨ h.bReq = usb_req_set_iface ∨
      h.bReq = usb_req_get_iface ∨ h.bReq = usb_req_set_desc ∨
      h.bReq = usb_req_synch_frame then
    ⟨false, false, cfg, none⟩
  else
    ⟨false, h.bmReqType &&& USB_REQ_TYPE_VENDOR == 0, cfg, none⟩

/-- The vendor-specific block of `usb_control_out` (lines 707-723): only
entered when `bmReqType` is exactly OUT plus vendor; the six recognized
FTDI commands set `ok`, any other opcode is logged and leaves `ok` as
the standard `switch` left it. -/
def usb_control_out_vendor (h : usb_header) (r : OutSt) : OutSt :=
  if h.bmReqType = USB_REQ_TYPE_OUT ||| USB_REQ_TYPE_VENDOR then
    if h.bReq = FTDI_SIO_RESET ∨ h.bReq = FTDI_SIO_MODEM_CTRL ∨
        h.bReq = FTDI_SIO_SET_BAUD_RATE ∨ h.bReq = FTDI_SIO_SET_DATA ∨
        h.bReq = FTDI_SIO_SET_FLOW_CTRL ∨
        h.bReq = FTDI_SIO_SET_LATENCY_TIMER then
      ⟨true, r.diag, r.cfg, r.addr⟩
    else ⟨r.ok, true, r.cfg, r.addr⟩
  else r

/-- Result of `usb_control_out`: ack/stall decision, diagnostic flag,
resulting `USB_config`, and the address latched by `USB_set_address`
when that path ran. -/
structure COutRes where
  action : CtrlAction
  diag : Bool
  cfg : Nat
  addr : Option Nat
deriving DecidableEq

/-- `usb_control_out` (lines 652-754): standard `switch` (with the
`USB_set_address` early return), then the vendor block, then the
`if(ok)` ack-or-stall decision; a control write acknowledges by sending
a zero-length status (clearing `TXINI`). -/
def usb_control_out (h : usb_header) (cfg : Nat) : COutRes :=
  let r0 := usb_control_out_std h cfg
  if r0.addr.isSome then ⟨CtrlAction.ack, r0.diag, r0.cfg, r0.addr⟩
  else
    let r := usb_control_out_vendor h r0
    ⟨if r.ok then CtrlAction.ack else CtrlAction.stall, r.diag, r.cfg, none⟩

/-- The dispatch of `handle_CONTROL` (lines 856-859): route on the
direction bit of `bmReqType`; a control write pushes no data-stage bytes
toward the host. -/
def handle_CONTROL (h : usb_header) (cfg : Nat) (sts : List EpStatus) :
    CInRes :=
  if h.bmReqType &&& USB_REQ_TYPE_IN ≠ 0 then usb_control_in h cfg sts
  else
    let r := usb_control_out h cfg
    ⟨[], r.action, r.diag, r.cfg⟩

/-- The relay's mutable globals (lines 756-761): `do_send_famous_message`,
`do_send_char` and the last received byte `usb_char`. -/
structure RelayState where
  do_send_famous_message : Bool
  do_send_char : Bool
  usb_char : Nat
deriving DecidableEq

/-- The bytes of `PSTR("Hello world!\r\n")` written by
`handle_outgoing_bytes` (line 785). -/
def famous_message : List Nat :=
  [72, 101, 108, 108, 111, 32, 119, 111, 114, 108, 100, 33, 13, 10]

/-- The two reserved status bytes `send_reserved_bytes` prepends to every
host-bound bulk packet (lines 764-769): modem status 0x80, line status
0x00. -/
def send_reserved_bytes : List Nat := [0x80, 0x00]

/-- The body of the per-byte loop of `handle_incoming_bytes` (lines
818-825): store the byte in `usb_char`, then pend the banner if it is
'a' (0x61) and an echo otherwise. -/
def recv_usb_byte (s : RelayState) (b : Nat) : RelayState :=
  if b = 0x61 then { s with usb_char := b, do_send_famous_message := true }
  else { s with usb_char := b, do_send_char := true }

/-- `handle_incoming_bytes` (lines 803-830): when the bulk OUT endpoint
signalled data received (`pkt = some bytes`), consume every buffered
byte through `recv_usb_byte` and acknowledge; otherwise do nothing. -/
def handle_incoming_bytes (pkt : Option (List Nat)) (s : RelayState) :
    RelayState :=
  match pkt with
  | none => s
  | some bs => bs.foldl recv_usb_byte s

/-- `handle_outgoing_bytes` (lines 772-800): service the banner first,
else the echo; the pending flag of the serviced item is cleared before
the transmit-ready test, and bytes are emitted on the bulk IN endpoint
only when `TXINI` is set. Returns the new state and the emitted
packet. -/
def handle_outgoing_bytes (txini : Bool) (s : RelayState) :
    RelayState × List Nat :=
  if s.do_send_famous_message then
    let s' := { s with do_send_famous_message := false }
    if txini then (s', send_reserved_bytes ++ famous_message) else (s', [])
  else if s.do_send_char then
    let s' := { s with do_send_char := false }
    if txini then (s', send_reserved_bytes ++ [s.usb_char]) else (s', [])
  else (s, [])

/-- One main-loop relay iteration (lines 980-984): the inbound check
followed by the outbound check. -/
def relay_step (pkt : Option (List Nat)) (txini : Bool) (s : RelayState) :
    RelayState × List Nat :=
  handle_outgoing_bytes txini (handle_incoming_bytes pkt s)

/-! ## Helper lemmas -/

/-- On an uninterrupted, always-ready control endpoint, `ctrl_write_PM`
streams exactly its first `len` source bytes and returns success. -/
theorem ctrl_write_PM_ready :
    ∀ (n : Nat) (addr acc : List Nat) (len : Nat), len ≤ 64 * n →
    ctrl_write_PM (List.replicate n readyStatus) addr len acc
      = CtrlResult.done (acc ++ addr.take len) 0 := by
  intro n
  induction n with
  | zero =>
    intro addr acc len hlen
    have h0 : len = 0 := by omega
    subst h0
    simp [ctrl_write_PM]
  | succ n ih =>
    intro addr acc len hlen
    by_cases h0 : len = 0
    · subst h0
      simp [ctrl_write_PM]
    · have hmin : min (64:Nat) len ≠ 0 := by omega
      have hred : ctrl_write_PM (List.replicate (n + 1) readyStatus) addr len acc
          = ctrl_write_PM (List.replicate n readyStatus)
              (addr.drop (min 64 len)) (len - min 64 len)
              (acc ++ addr.take (min 64 len)) := by
        rw [List.replicate_succ]
        simp [ctrl_write_PM, readyStatus, h0, hmin]
      rw [hred, ih _ _ _ (by omega)]
      have hsplit : min 64 len + (len - min 64 len) = len := by omega
      rw [List.append_assoc, ← List.take_add, hsplit]

/-! ## Claim theorems -/

/-- C1: for every Get Descriptor request the dispatcher recognizes
(device, configuration, or string descriptor with a valid index), served
on an uninterrupted ready control endpoint, the number of bytes sent to
the host equals `min(wLength, nativeDescriptorLength)` and the bytes
sent are a prefix of the full descriptor; the transfer is then
acknowledged. -/
theorem get_desc_truncation (wv wi wl cfg n : Nat) (desc : List Nat)
    (hd : USB_get_desc_lookup wv = some desc)
    (hn : desc.length ≤ 64 * n) :
    (usb_control_in ⟨0x80, usb_req_get_desc, wv, wi, wl⟩ cfg
        (List.replicate n readyStatus)).data.length = min wl desc.length
    ∧ (usb_control_in ⟨0x80, usb_req_get_desc, wv, wi, wl⟩ cfg
        (List.replicate n readyStatus)).data <+: desc
    ∧ (usb_control_in ⟨0x80, usb_req_get_desc, wv, wi, wl⟩ cfg
        (List.replicate n readyStatus)).action = CtrlAction.ack := by
  have hrun := ctrl_write_PM_ready n desc [] (min desc.length wl) (by omega)
  have hred : usb_control_in ⟨0x80, usb_req_get_desc, wv, wi, wl⟩ cfg
      (List.replicate n readyStatus)
      = ⟨desc.take (min desc.length wl), CtrlAction.ack, false, cfg⟩ := by
    simp [usb_control_in, usb_control_in_std, usb_control_in_vendor,
      usb_req_get_desc, usb_req_set_feature, usb_req_clear_feature,
      usb_req_get_status, usb_req_set_address, USB_REQ_TYPE_IN,
      USB_REQ_TYPE_VENDOR, hd, hrun]
  refine ⟨?_, ?_, ?_⟩
  · rw [hred]
    simp [List.length_take]
    omega
  · rw [hred]
    exact ⟨desc.drop (min desc.length wl),
      List.take_append_drop (min desc.length wl) desc⟩
  · rw [hred]

/-- Witness for C1 at a concrete input: the device descriptor requested
with `wLength = 5` yields 5 bytes forming a prefix of the
descriptor, and the transfer is acknowledged. -/
theorem get_desc_truncation_witness :
    (usb_control_in ⟨0x80, usb_req_get_desc, 0x0100, 0, 5⟩ 0
        (List.replicate 1 readyStatus)).data.length = min 5 devdescBytes.length
    ∧ (usb_control_in ⟨0x80, usb_req_get_desc, 0x0100, 0, 5⟩ 0
        (List.replicate 1 readyStatus)).data <+: devdescBytes
    ∧ (usb_control_in ⟨0x80, usb_req_get_desc, 0x0100, 0, 5⟩ 0
        (List.replicate 1 readyStatus)).action = CtrlAction.ack :=
  get_desc_truncation 0x0100 0 5 0 1 devdescBytes (by decide) (by decide)

/-- C5: a Get Device Descriptor request with `wLength = 18` is answered
with exactly the 18-byte device descriptor; its byte 0 is 18, byte 1 is
the device-descriptor type tag, and bytes 8 and 9 read little-endian
give the vendor ID 0x0403. -/
theorem get_device_descriptor_18 :
    (usb_control_in ⟨0x80, usb_req_get_desc, 0x0100, 0, 18⟩ 0
        (List.replicate 1 readyStatus)).data = devdescBytes
    ∧ devdescBytes.length = 18
    ∧ devdescBytes.getD 0 0 = 18
    ∧ devdescBytes.getD 1 0 = usb_desc_device
    ∧ devdescBytes.getD 8 0 + 256 * devdescBytes.getD 9 0 = 0x0403
    ∧ (usb_control_in ⟨0x80, usb_req_get_desc, 0x0100, 0, 18⟩ 0
        (List.replicate 1 readyStatus)).action = CtrlAction.ack := by
  decide

/-- C3 counterexample: a single bulk OUT packet holding the trigger byte
'a' (0x61) followed by 'b' (0x62) leaves both the send-banner flag and
the echo flag set after the inbound relay check, so the two pending
flags are simultaneously set. -/
theorem relay_both_flags_counterexample :
    (handle_incoming_bytes (some [0x61, 0x62]) ⟨false, false, 0⟩).do_send_famous_message = true
    ∧ (handle_incoming_bytes (some [0x61, 0x62]) ⟨false, false, 0⟩).do_send_char = true := by
  decide

/-- C3 amended: after every full main-loop relay iteration (inbound check
followed by outbound check), the send-banner flag is clear, so at most
one outbound item (an echo) remains pending; both flags simultaneously
set occurs only transiently between the inbound and outbound checks,
when one packet mixes the trigger byte with other bytes. -/
theorem relay_step_at_most_one_pending (pkt : Option (List Nat))
    (txini : Bool) (s : RelayState) :
    (relay_step pkt txini s).1.do_send_famous_message = false
    ∧ ¬((relay_step pkt txini s).1.do_send_famous_message = true
        ∧ (relay_step pkt txini s).1.do_send_char = true) := by
  rw [relay_step]
  rcases handle_incoming_bytes pkt s with ⟨f, c, u⟩
  cases f <;> cases c <;> cases txini <;>
    simp [handle_outgoing_bytes]

/-- C6: after the host delivers the single byte 0x41 ('A') on the bulk
OUT endpoint, one relay poll (inbound then outbound) with the bulk IN
endpoint transmit-ready produces exactly the packet 0x80 0x00 0x41. -/
theorem relay_echo_scenario :
    relay_step (some [0x41]) true ⟨false, false, 0⟩
      = (⟨false, false, 0x41⟩, [0x80, 0x00, 0x41]) := by
  decide

/-- C7: after the host delivers the byte 0x61 ('a'), the next serviced
bulk IN packet is exactly 0x80 0x00 followed by the fixed 14-byte banner
"Hello world!" with CR LF, and a second outbound poll with no new
trigger input sends nothing. -/
theorem relay_banner_scenario :
    relay_step (some [0x61]) true ⟨false, false, 0⟩
      = (⟨false, false, 0x61⟩, [0x80, 0x00] ++ famous_message)
    ∧ famous_message.length = 14
    ∧ handle_outgoing_bytes true ⟨false, false, 0x61⟩
      = (⟨false, false, 0x61⟩, []) := by
  decide

/-- C10: when the outbound relay check runs with the bulk IN endpoint not
transmit-ready, the pending item is dropped: the banner flag is cleared
without emitting a byte (and, if no banner was pending, the echo flag is
cleared instead), so each pending item gets exactly one send attempt;
moreover from a state with no pending item no outbound poll ever emits
anything. -/
theorem outgoing_drop_when_not_ready (s : RelayState) (t : Bool) (c : Nat) :
    handle_outgoing_bytes false s
      = (⟨false, s.do_send_famous_message && s.do_send_char, s.usb_char⟩, [])
    ∧ handle_outgoing_bytes t ⟨false, false, c⟩ = (⟨false, false, c⟩, []) := by
  rcases s with ⟨f, ch, u⟩
  cases f <;> cases ch <;> cases t <;> simp [handle_outgoing_bytes]

/-- C2 counterexample: a vendor-specific control-OUT request with opcode
6 (an FTDI opcode this firmware does not recognize) is answered with a
stall request, not with a zero-length acknowledge; a diagnostic is
emitted. -/
theorem unknown_vendor_out_counterexample :
    (usb_control_out ⟨0x40, 6, 0, 0, 0⟩ 0).action = CtrlAction.stall
    ∧ (usb_control_out ⟨0x40, 6, 0, 0, 0⟩ 0).action ≠ CtrlAction.ack
    ∧ (usb_control_out ⟨0x40, 6, 0, 0, 0⟩ 0).diag = true := by
  decide

/-- C2 amended: for every control-OUT request whose bmRequestType marks
it vendor-specific and whose opcode is not one of the recognized FTDI
commands (Reset, Modem Control, Set Baud Rate, Set Data, Set Flow
Control, Set Latency Timer), a diagnostic message is emitted and the
device requests a stall on the control endpoint; the transfer is not
acknowledged. -/
theorem unknown_vendor_out_stalls (h : usb_header) (cfg : Nat)
    (ht : h.bmReqType = USB_REQ_TYPE_OUT ||| USB_REQ_TYPE_VENDOR)
    (hr : h.bReq ∉ [FTDI_SIO_RESET, FTDI_SIO_MODEM_CTRL,
        FTDI_SIO_SET_BAUD_RATE, FTDI_SIO_SET_DATA, FTDI_SIO_SET_FLOW_CTRL,
        FTDI_SIO_SET_LATENCY_TIMER]) :
    (usb_control_out h cfg).action = CtrlAction.stall
    ∧ (usb_control_out h cfg).diag = true := by
  obtain ⟨t, r, wv, wi, wl⟩ := h
  simp only [FTDI_SIO_RESET, FTDI_SIO_MODEM_CTRL, FTDI_SIO_SET_BAUD_RATE,
    FTDI_SIO_SET_DATA, FTDI_SIO_SET_FLOW_CTRL, FTDI_SIO_SET_LATENCY_TIMER,
    List.mem_cons, List.mem_singleton, not_or] at hr
  obtain ⟨h0, h1, h3, h4, h2, h9⟩ := hr
  simp only [USB_REQ_TYPE_OUT, USB_REQ_TYPE_VENDOR] at ht
  norm_num at ht
  subst ht
  by_cases hlt : r < 13
  · interval_cases r <;>
      simp_all [usb_control_out, usb_control_out_std, usb_control_out_vendor,
        usb_req_set_feature, usb_req_clear_feature, usb_req_get_status,
        usb_req_set_address, usb_req_get_desc, usb_req_set_config,
        usb_req_get_config, usb_req_set_iface, usb_req_get_iface,
        usb_req_set_desc, usb_req_synch_frame, USB_REQ_TYPE_OUT,
        USB_REQ_TYPE_VENDOR, USB_REQ_TYPE_IN, FTDI_SIO_RESET,
        FTDI_SIO_MODEM_CTRL, FTDI_SIO_SET_BAUD_RATE, FTDI_SIO_SET_DATA,
        FTDI_SIO_SET_FLOW_CTRL, FTDI_SIO_SET_LATENCY_TIMER]
  · have e0 : r ≠ 0 := by omega
    have e1 : r ≠ 1 := by omega
    have e2 : r ≠ 2 := by omega
    have e3 : r ≠ 3 := by omega
    have e4 : r ≠ 4 := by omega
    have e5 : r ≠ 5 := by omega
    have e6 : r ≠ 6 := by omega
    have e7 : r ≠ 7 := by omega
    have e8 : r ≠ 8 := by omega
    have e9 : r ≠ 9 := by omega
    have e10 : r ≠ 10 := by omega
    have e11 : r ≠ 11 := by omega
    have e12 : r ≠ 12 := by omega
    simp [usb_control_out, usb_control_out_std, usb_control_out_vendor,
      usb_req_set_feature, usb_req_clear_feature, usb_req_get_status,
      usb_req_set_address, usb_req_get_desc, usb_req_set_config,
      usb_req_get_config, usb_req_set_iface, usb_req_get_iface,
      usb_req_set_desc, usb_req_synch_frame, USB_REQ_TYPE_OUT,
      USB_REQ_TYPE_VENDOR, USB_REQ_TYPE_IN, FTDI_SIO_RESET,
      FTDI_SIO_MODEM_CTRL, FTDI_SIO_SET_BAUD_RATE, FTDI_SIO_SET_DATA,
      FTDI_SIO_SET_FLOW_CTRL, FTDI_SIO_SET_LATENCY_TIMER,
      e0, e1, e2, e3, e4, e5, e6, e7, e8, e9, e10, e11, e12]

/-- Witness for C2 amended at the concrete input of the counterexample. -/
theorem unknown_vendor_out_stalls_witness :
    (usb_control_out ⟨0x40, 6, 0, 0, 0⟩ 7).action = CtrlAction.stall
    ∧ (usb_control_out ⟨0x40, 6, 0, 0, 0⟩ 7).diag = true :=
  unknown_vendor_out_stalls ⟨0x40, 6, 0, 0, 0⟩ 7 (by decide) (by decide)

/-- C4 counterexample: Set Configuration with wValue 256 followed by Get
Configuration returns the single byte 0, not the value 256 that was
set, because `USB_config` is an 8-bit register. -/
theorem set_get_config_counterexample :
    (usb_control_in ⟨0x80, usb_req_get_config, 0, 0, 1⟩
        ((usb_control_out ⟨0, usb_req_set_config, 256, 0, 0⟩ 0).cfg) []).data = [0]
    ∧ (usb_control_in ⟨0x80, usb_req_get_config, 0, 0, 1⟩
        ((usb_control_out ⟨0, usb_req_set_config, 256, 0, 0⟩ 0).cfg) []).data ≠ [256] := by
  decide

/-- C4 amended: for every value v below 256, a Set Configuration request
with wValue v followed by a Get Configuration request returns the value
most recently set, v (for larger wValue only its low byte is stored,
since the configuration register is 8-bit); both transfers are
acknowledged. -/
theorem set_get_config_roundtrip (v cfg0 : Nat) (sts : List EpStatus)
    (hv : v < 256) :
    (usb_control_out ⟨0, usb_req_set_config, v, 0, 0⟩ cfg0).action = CtrlAction.ack
    ∧ (usb_control_in ⟨0x80, usb_req_get_config, 0, 0, 1⟩
        ((usb_control_out ⟨0, usb_req_set_config, v, 0, 0⟩ cfg0).cfg) sts).data = [v]
    ∧ (usb_control_in ⟨0x80, usb_req_get_config, 0, 0, 1⟩
        ((usb_control_out ⟨0, usb_req_set_config, v, 0, 0⟩ cfg0).cfg) sts).action
      = CtrlAction.ack := by
  have hset : usb_control_out ⟨0, usb_req_set_config, v, 0, 0⟩ cfg0
      = ⟨CtrlAction.ack, false, v % 256, none⟩ := by
    simp [usb_control_out, usb_control_out_std, usb_control_out_vendor,
      usb_req_set_feature, usb_req_clear_feature, usb_req_get_status,
      usb_req_set_address, usb_req_get_desc, usb_req_set_config,
      usb_req_get_config, usb_req_set_iface, usb_req_get_iface,
      usb_req_set_desc, usb_req_synch_frame, USB_REQ_TYPE_OUT,
      USB_REQ_TYPE_VENDOR, USB_REQ_TYPE_IN]
  have hget : usb_control_in ⟨0x80, usb_req_get_config, 0, 0, 1⟩ (v % 256) sts
      = ⟨[v], CtrlAction.ack, false, v % 256⟩ := by
    simp [usb_control_in, usb_control_in_std, usb_control_in_vendor,
      usb_req_set_feature, usb_req_clear_feature, usb_req_get_status,
      usb_req_set_address, usb_req_get_desc, usb_req_set_config,
      usb_req_get_config, usb_req_set_iface, usb_req_get_iface,
      usb_req_set_desc, usb_req_synch_frame, USB_REQ_TYPE_OUT,
      USB_REQ_TYPE_VENDOR, USB_REQ_TYPE_IN, Nat.mod_eq_of_lt hv]
  rw [hset]
  rw [show (⟨CtrlAction.ack, false, v % 256, none⟩ : COutRes).cfg = v % 256 from rfl,
    hget]
  exact ⟨rfl, rfl, rfl⟩

/-- Witness for C4 amended at v = 5. -/
theorem set_get_config_roundtrip_witness :
    (usb_control_out ⟨0, usb_req_set_config, 5, 0, 0⟩ 0).action = CtrlAction.ack
    ∧ (usb_control_in ⟨0x80, usb_req_get_config, 0, 0, 1⟩
        ((usb_control_out ⟨0, usb_req_set_config, 5, 0, 0⟩ 0).cfg) []).data = [5]
    ∧ (usb_control_in ⟨0x80, usb_req_get_config, 0, 0, 1⟩
        ((usb_control_out ⟨0, usb_req_set_config, 5, 0, 0⟩ 0).cfg) []).action
      = CtrlAction.ack :=
  set_get_config_roundtrip 5 0 [] (by decide)

/-- C8: every standard (non-vendor) request whose opcode the dispatcher
does not implement (Set Interface, Get Interface, Set Descriptor, Synch
Frame, or any other unimplemented opcode) is answered, in either
transfer direction, with a stall request and no data bytes. -/
theorem unknown_standard_request_stalls (h : usb_header) (cfg : Nat)
    (sts : List EpStatus)
    (hv : h.bmReqType &&& USB_REQ_TYPE_VENDOR = 0)
    (hr : h.bReq ∉ [usb_req_get_status, usb_req_clear_feature,
        usb_req_set_feature, usb_req_set_address, usb_req_get_desc,
        usb_req_get_config, usb_req_set_config]) :
    (handle_CONTROL h cfg sts).action = CtrlAction.stall
    ∧ (handle_CONTROL h cfg sts).data = [] := by
  obtain ⟨t, r, wv, wi, wl⟩ := h
  simp only [usb_req_get_status, usb_req_clear_feature, usb_req_set_feature,
    usb_req_set_address, usb_req_get_desc, usb_req_get_config,
    usb_req_set_config, List.mem_cons, List.mem_singleton, not_or] at hr
  obtain ⟨h0, h1, h3, h5, h6, h8, h9⟩ := hr
  simp only [USB_REQ_TYPE_VENDOR] at hv
  have hc0 : t ≠ 0xC0 := by
    intro he; rw [he] at hv; simp at hv
  have hc4 : t ≠ 0x40 := by
    intro he; rw [he] at hv; simp at hv
  rw [handle_CONTROL]
  by_cases hlt : r < 13
  · interval_cases r <;> split_ifs <;>
      simp_all [usb_control_in, usb_control_in_std, usb_control_in_vendor,
        usb_control_out, usb_control_out_std, usb_control_out_vendor,
        usb_req_set_feature, usb_req_clear_feature, usb_req_get_status,
        usb_req_set_address, usb_req_get_desc, usb_req_set_config,
        usb_req_get_config, usb_req_set_iface, usb_req_get_iface,
        usb_req_set_desc, usb_req_synch_frame, USB_REQ_TYPE_OUT,
        USB_REQ_TYPE_VENDOR, USB_REQ_TYPE_IN, USB_REQ_TYPE_INTERFACE,
        USB_REQ_TYPE_ENDPOINT]
  · have e2 : r ≠ 2 := by omega
    have e4 : r ≠ 4 := by omega
    have e7 : r ≠ 7 := by omega
    have e10 : r ≠ 10 := by omega
    have e11 : r ≠ 11 := by omega
    have e12 : r ≠ 12 := by omega
    split_ifs <;>
      simp [usb_control_in, usb_control_in_std, usb_control_in_vendor,
        usb_control_out, usb_control_out_std, usb_control_out_vendor,
        usb_req_set_feature, usb_req_clear_feature, usb_req_get_status,
        usb_req_set_address, usb_req_get_desc, usb_req_set_config,
        usb_req_get_config, usb_req_set_iface, usb_req_get_iface,
        usb_req_set_desc, usb_req_synch_frame, USB_REQ_TYPE_OUT,
        USB_REQ_TYPE_VENDOR, USB_REQ_TYPE_IN, USB_REQ_TYPE_INTERFACE,
        USB_REQ_TYPE_ENDPOINT, h0, h1, h3, h5, h6, h8, h9,
        e2, e4, e7, e10, e11, e12, hc0, hc4]

/-- Witness for C8: a Set Interface request (opcode 11) on the OUT
direction is stalled with no data. -/
theorem unknown_standard_request_stalls_witness :
    (handle_CONTROL ⟨0, usb_req_set_iface, 0, 0, 0⟩ 0 []).action = CtrlAction.stall
    ∧ (handle_CONTROL ⟨0, usb_req_set_iface, 0, 0, 0⟩ 0 []).data = [] :=
  unknown_standard_request_stalls ⟨0, usb_req_set_iface, 0, 0, 0⟩ 0 []
    (by decide) (by decide)

/-- C9: each recognized vendor-specific IN request is answered with its
fixed canned value independent of the device state (the whole result,
data and action, is the same for every configuration value, every
wValue/wIndex/wLength and every endpoint status stream, so repeating a
request yields identical output): Read EEPROM returns 0xFF 0xFF, Get
Latency Timer returns 0x10, Get Modem Status returns 0x00, all
acknowledged. -/
theorem vendor_in_canned_responses (wv wi wl cfg : Nat)
    (sts : List EpStatus) :
    usb_control_in ⟨0xC0, FTDI_SIO_READ_EEPROM, wv, wi, wl⟩ cfg sts
      = ⟨[0xff, 0xff], CtrlAction.ack, false, cfg⟩
    ∧ usb_control_in ⟨0xC0, FTDI_SIO_GET_LATENCY_TIMER, wv, wi, wl⟩ cfg sts
      = ⟨[0x10], CtrlAction.ack, false, cfg⟩
    ∧ usb_control_in ⟨0xC0, FTDI_SIO_GET_MODEM_STATUS, wv, wi, wl⟩ cfg sts
      = ⟨[0x00], CtrlAction.ack, false, cfg⟩ := by
  refine ⟨?_, ?_, ?_⟩ <;>
    simp [usb_control_in, usb_control_in_std, usb_control_in_vendor,
      usb_req_set_feature, usb_req_clear_feature, usb_req_get_status,
      usb_req_set_address, usb_req_get_desc, usb_req_set_config,
      usb_req_get_config, usb_req_set_iface, usb_req_get_iface,
      usb_req_set_desc, usb_req_synch_frame, USB_REQ_TYPE_IN,
      USB_REQ_TYPE_VENDOR, FTDI_SIO_READ_EEPROM,
      FTDI_SIO_GET_LATENCY_TIMER, FTDI_SIO_GET_MODEM_STATUS]
